import Mathlib

/-!
Shallow embedding of `src/modules/segment_by_segment_model.py`
(class `SegmentBySegmentCondenser`) over exact rational arithmetic.

Modelling conventions:
* Python floats are modelled as `ℚ` (exact arithmetic; float literals such as
  0.1, 0.95, 1.1 become the rationals 1/10, 95/100, 11/10).
* `math.pi` is modelled by the exact rational value of the IEEE-754 double
  that Python's `math.pi` denotes.
* The repository leaves `get_enthalpy`, `get_refrigerant_properties`,
  `calculate_single_phase_htc_local`, `calculate_condensation_htc_local` and
  `calculate_shell_side_htc_local` as placeholder stubs ("use your existing
  implementation"), and `math.log` is an external numeric primitive; all of
  these are therefore parameters of the embedding, collected in `Oracle`.
* Division on `ℚ` is total with `x / 0 = 0`; the embedding agrees with the
  Python code on every run in which Python does not raise `ZeroDivisionError`.
  The one entry-level division, `tube_length / n_segments` at line 80, is
  modelled explicitly: `calculate_condenser_segmented` returns the
  `ZeroDivisionError` outcome when `n_segments = 0`.
* A Python dict to which some keys may never be assigned (the per-segment
  record in the zero-active-tubes branch) is modelled by a structure with
  `Option` fields: `none` is an absent key (a `NaN` cell in the resulting
  pandas DataFrame). pandas `sum`/`mean` skip `NaN`, modelled by `optSum` /
  `optMean` below. When *no* segment ever assigns a key, the DataFrame has
  no such column at all and column access raises `KeyError`: this happens
  for `A_segment` in `calculate_zone_summaries` (line 389) exactly when
  every segment had zero active tubes, and is modelled by the error path of
  `calculate_condenser_segmented`, which returns a result only on runs that
  actually report one.
* The warning / recommendation message strings are modelled structurally:
  each distinct message becomes a constructor carrying the numeric values
  interpolated into the string (unrounded; Python's `:.0f` only affects
  rendering).
-/

/-- Refrigerant phase labels used by the marcher
(`"superheat"` / `"two_phase"` / `"subcooled"`). -/
inductive Phase where
  | superheat
  | two_phase
  | subcooled
deriving DecidableEq, Repr

/-- Logical zone names used in the tube-zone assignment dict
(`"desuperheat"` / `"condense"` / `"subcool"`). -/
inductive ZoneName where
  | desuperheat
  | condense
  | subcool
deriving DecidableEq, Repr

/-- The `phase=` string argument of the property-service calls
(`"vapor"` / `"liquid"`). -/
inductive PhaseTag where
  | vapor
  | liquid
deriving DecidableEq, Repr

/-- `phase_to_zone` dict in `get_active_tubes_in_zone`. -/
def phase_to_zone : Phase → ZoneName
  | Phase.superheat => ZoneName.desuperheat
  | Phase.two_phase => ZoneName.condense
  | Phase.subcooled => ZoneName.subcool

/-- Boolean equality test on `Phase` (the `df["phase"] == phase` string
comparison). -/
def phase_eqb : Phase → Phase → Bool
  | Phase.superheat, Phase.superheat => true
  | Phase.two_phase, Phase.two_phase => true
  | Phase.subcooled, Phase.subcooled => true
  | _, _ => false

/-- Boolean equality test on `ZoneName` (the `zone == zone_name` string
comparison). -/
def zone_eqb : ZoneName → ZoneName → Bool
  | ZoneName.desuperheat, ZoneName.desuperheat => true
  | ZoneName.condense, ZoneName.condense => true
  | ZoneName.subcool, ZoneName.subcool => true
  | _, _ => false

/-- `get_active_tubes_in_zone`: the tubes of the assignment dict mapped to
the zone corresponding to the current phase. -/
def get_active_tubes_in_zone (tube_zones : List (Nat × ZoneName)) (current_phase : Phase) :
    List Nat :=
  (tube_zones.filter (fun p => zone_eqb p.2 (phase_to_zone current_phase))).map (fun p => p.1)

/-- Exact rational value of the IEEE-754 double `math.pi`. -/
def math_pi : ℚ := 884279719003555 / 281474976710656

/-- The `inputs` dict consumed by `calculate_condenser_segmented`.
`ref_props_h_fg` and `ref_props_cp_liquid` are `inputs["ref_props"]["h_fg"]`
and `inputs["ref_props"]["cp_liquid"]` (kJ-based units, the code multiplies
them by 1000). -/
structure Inputs where
  m_dot_ref : ℚ
  T_ref_in_superheated : ℚ
  T_ref : ℚ
  delta_T_sh_sc : ℚ
  tube_zones : Option (List (Nat × ZoneName))
  n_tubes : Nat
  tube_length : ℚ
  tube_od : ℚ
  tube_id : ℚ
  tube_k : ℚ
  R_fouling_tube : ℚ
  R_fouling_shell : ℚ
  m_dot_water : ℚ
  C_water : ℚ
  T_water_in : ℚ
  P_cond : ℚ
  ref_props_h_fg : ℚ
  ref_props_cp_liquid : ℚ
  n_segments : Nat

/-- The external collaborators the marcher calls per segment: the property
service (`get_enthalpy`, `get_refrigerant_properties`, the latter consumed
only through the correlators), the three HTC correlators (all placeholder
stubs in the source) and `math.log`. Each field's arguments are the data the
corresponding Python call site actually passes that varies within a run. -/
structure Oracle where
  enthalpy : ℚ → ℚ → PhaseTag → ℚ
  cp_vapor : ℚ → ℚ
  cp_liquid : ℚ → ℚ
  single_phase_htc : ℚ → ℚ → ℚ → PhaseTag → Nat → ℚ
  condensation_htc : ℚ → ℚ → ℚ → ℚ → Nat → ℚ
  shell_htc : Nat → ℚ
  log : ℚ → ℚ

/-- STEP 1 of the marching loop (lines 120-139): determine refrigerant phase
and quality from the current temperature and enthalpy. -/
def classify_phase (T_ref T_cond h_ref h_f h_g h_fg : ℚ) : Phase × Option ℚ :=
  if T_ref > T_cond + 1/10 then
    (Phase.superheat, none)
  else if h_ref > h_g - 100 then
    (Phase.superheat, none)
  else if h_ref > h_f + 100 then
    let quality : ℚ := if h_fg > 0 then (h_ref - h_f) / h_fg else 1/2
    (Phase.two_phase, some (max 0 (min 1 quality)))
  else
    (Phase.subcooled, none)

/-- `calculate_U_local`: local overall conductance (the `log` parameter
models `math.log`). -/
def calculate_U_local (log : ℚ → ℚ) (h_tube h_shell tube_od tube_id k R_foul_t R_foul_s : ℚ) :
    ℚ :=
  let R_wall := (tube_od / (2 * k)) * log (tube_od / tube_id)
  1 / (1/h_tube + (tube_od/tube_id)/h_shell + R_wall + R_foul_t + (tube_od/tube_id)*R_foul_s)

/-- One per-segment record (the `segment` dict). Fields that the
zero-active-tubes branch never assigns are `Option`-valued. -/
structure SegmentRec where
  segment_number : Nat
  position_m : ℚ
  length_m : ℚ
  phase : Phase
  quality : Option ℚ
  T_ref : ℚ
  n_tubes_active : Nat
  Q_segment : ℚ
  h_tube : ℚ
  U_local : ℚ
  h_shell : Option ℚ
  A_segment : Option ℚ
  LMTD : Option ℚ
  T_ref_out : Option ℚ
  T_water_out : Option ℚ
  h_ref : Option ℚ
  Q_cumulative : Option ℚ
deriving DecidableEq, Repr

/-- The mutable loop state of `calculate_condenser_segmented`. -/
structure MarchState where
  T_ref : ℚ
  T_water : ℚ
  h_ref : ℚ
  Q_cumulative : ℚ
  current_zone : Option Phase
deriving DecidableEq, Repr

/-- One iteration of the segment loop (lines 110-297) at loop index `i`
(0-based): returns the updated state and the recorded segment. -/
def march_step (o : Oracle) (inp : Inputs) (i : Nat) (s : MarchState) :
    MarchState × SegmentRec :=
  let L_segment := inp.tube_length / (inp.n_segments : ℚ)
  let T_cond := inp.T_ref
  let h_fg := inp.ref_props_h_fg * 1000
  let h_f := o.enthalpy T_cond inp.P_cond PhaseTag.liquid
  let h_g := h_f + h_fg
  -- STEP 1: phase classification
  let pq := classify_phase s.T_ref T_cond s.h_ref h_f h_g h_fg
  let phase := pq.1
  let quality := pq.2
  -- zone tracking (lines 146-148); `zone_start_indices` is never read
  let current_zone' : Option Phase := some phase
  -- STEP 3 entry: active tubes for this zone
  let n_tubes_active := match inp.tube_zones with
    | some tz => (get_active_tubes_in_zone tz phase).length
    | none => inp.n_tubes
  if n_tubes_active = 0 then
    -- no tubes assigned to this zone: record zeros and continue
    ({ s with current_zone := current_zone' },
     { segment_number := i + 1
       position_m := (i : ℚ) * L_segment + L_segment / 2
       length_m := L_segment
       phase := phase
       quality := quality
       T_ref := s.T_ref
       n_tubes_active := n_tubes_active
       Q_segment := 0
       h_tube := 0
       U_local := 0
       h_shell := none
       A_segment := none
       LMTD := none
       T_ref_out := none
       T_water_out := none
       h_ref := none
       Q_cumulative := none })
  else
    -- STEP 2: local properties (consumed via cp and the correlators)
    let cp_ref : ℚ := match phase with
      | Phase.superheat => o.cp_vapor s.T_ref * 1000
      | Phase.two_phase => 10000000000
      | Phase.subcooled => o.cp_liquid s.T_ref * 1000
    -- STEP 3: heat-transfer coefficients
    let h_tube : ℚ := match phase with
      | Phase.superheat =>
          o.single_phase_htc inp.m_dot_ref inp.tube_id s.T_ref PhaseTag.vapor n_tubes_active
      | Phase.two_phase =>
          o.condensation_htc inp.m_dot_ref inp.tube_id T_cond (quality.getD 0) n_tubes_active
      | Phase.subcooled =>
          o.single_phase_htc inp.m_dot_ref inp.tube_id s.T_ref PhaseTag.liquid n_tubes_active
    let h_shell := o.shell_htc n_tubes_active
    let U_local := calculate_U_local o.log h_tube h_shell inp.tube_od inp.tube_id
      inp.tube_k inp.R_fouling_tube inp.R_fouling_shell
    -- STEP 4: area, driving force, duty
    let A_segment := math_pi * inp.tube_od * L_segment * (n_tubes_active : ℚ)
    let LMTD_segment : ℚ :=
      if phase = Phase.two_phase then
        T_cond - s.T_water
      else
        let T_ref_out_est := if phase = Phase.superheat then s.T_ref - 2 else s.T_ref + 2
        let T_water_out_est := s.T_water + 1/5
        let dt1 := s.T_ref - T_water_out_est
        let dt2 := T_ref_out_est - s.T_water
        if dt1 > 0 ∧ dt2 > 0 then
          if abs (dt1 - dt2) > 1/100 then (dt1 - dt2) / o.log (dt1 / dt2)
          else (dt1 + dt2) / 2
        else 5
    let Q_segment := U_local * A_segment * LMTD_segment
    -- STEP 5: state update
    let next : ℚ × ℚ :=
      if phase = Phase.two_phase then
        (T_cond, s.h_ref - Q_segment / inp.m_dot_ref)
      else
        (s.T_ref - Q_segment / (inp.m_dot_ref * cp_ref), s.h_ref - Q_segment / inp.m_dot_ref)
    let T_ref' := next.1
    let h_ref' := next.2
    let T_water' := s.T_water + Q_segment / inp.C_water
    let Q_cumulative' := s.Q_cumulative + Q_segment
    ({ T_ref := T_ref', T_water := T_water', h_ref := h_ref',
       Q_cumulative := Q_cumulative', current_zone := current_zone' },
     { segment_number := i + 1
       position_m := (i : ℚ) * L_segment + L_segment / 2
       length_m := L_segment
       phase := phase
       quality := quality
       T_ref := s.T_ref
       n_tubes_active := n_tubes_active
       Q_segment := Q_segment
       h_tube := h_tube
       U_local := U_local
       h_shell := some h_shell
       A_segment := some A_segment
       LMTD := some LMTD_segment
       T_ref_out := some T_ref'
       T_water_out := some T_water'
       h_ref := some h_ref'
       Q_cumulative := some Q_cumulative' })

/-- The segment loop: `fuel` remaining iterations starting at loop index `i`. -/
def march_aux (o : Oracle) (inp : Inputs) (s : MarchState) (i : Nat) :
    Nat → MarchState × List SegmentRec
  | 0 => (s, [])
  | fuel + 1 =>
    let step := march_step o inp i s
    let rest := march_aux o inp step.1 (i + 1) fuel
    (rest.1, step.2 :: rest.2)

/-- Initial loop state (lines 90-101): inlet temperatures and the inlet
vapor enthalpy from the property service. -/
def init_state (o : Oracle) (inp : Inputs) : MarchState :=
  { T_ref := inp.T_ref_in_superheated
    T_water := inp.T_water_in
    h_ref := o.enthalpy inp.T_ref_in_superheated inp.P_cond PhaseTag.vapor
    Q_cumulative := 0
    current_zone := none }

/-- One entry of `identify_zone_boundaries`. -/
structure ZoneBounds where
  start_segment : Nat
  end_segment : Nat
  start_position_m : ℚ
  end_position_m : ℚ
  length_m : ℚ
  n_segments : Nat
deriving DecidableEq, Repr

/-- `identify_zone_boundaries`: present exactly for the phases observed in
the trace. -/
def identify_zone_boundaries (segs : List SegmentRec) (phase : Phase) : Option ZoneBounds :=
  let phase_segments := segs.filter (fun r => phase_eqb r.phase phase)
  match phase_segments.head?, phase_segments.getLast? with
  | some f, some l =>
      some { start_segment := f.segment_number
             end_segment := l.segment_number
             start_position_m := f.position_m
             end_position_m := l.position_m
             length_m := (phase_segments.map (fun r => r.length_m)).sum
             n_segments := phase_segments.length }
  | _, _ => none

/-- pandas column `sum()`: `NaN` (absent) cells are skipped. -/
def optSum (l : List (Option ℚ)) : ℚ := (l.filterMap id).sum

/-- pandas column `mean()`: `NaN` cells are skipped; all-`NaN` gives `NaN`
(modelled `none`). -/
def optMean (l : List (Option ℚ)) : Option ℚ :=
  let v := l.filterMap id
  if v.length = 0 then none else some (v.sum / (v.length : ℚ))

/-- pandas `mean()` of a fully populated column. -/
def listMean (l : List ℚ) : ℚ := l.sum / (l.length : ℚ)

/-- One entry of `calculate_zone_summaries`. -/
structure ZoneSummary where
  Q_total : ℚ
  A_total : ℚ
  length_m : ℚ
  U_avg : ℚ
  h_tube_avg : ℚ
  LMTD_avg : Option ℚ
  n_segments : Nat
deriving DecidableEq, Repr

/-- `calculate_zone_summaries`: a summary per phase observed in the trace. -/
def calculate_zone_summaries (segs : List SegmentRec) (phase : Phase) : Option ZoneSummary :=
  (identify_zone_boundaries segs phase).map (fun bounds =>
    let phase_df := segs.filter (fun r => phase_eqb r.phase phase)
    { Q_total := (phase_df.map (fun r => r.Q_segment)).sum
      A_total := optSum (phase_df.map (fun r => r.A_segment))
      length_m := bounds.length_m
      U_avg := listMean (phase_df.map (fun r => r.U_local))
      h_tube_avg := listMean (phase_df.map (fun r => r.h_tube))
      LMTD_avg := optMean (phase_df.map (fun r => r.LMTD))
      n_segments := bounds.n_segments })

/-- The warning strings of `analyze_subcool_zone`, modelled structurally with
the interpolated numeric values as arguments. -/
inductive Warning where
  | critical_no_subcool
  | area_insufficient (actual required deficit deficit_percent : ℚ)
  | thermal_pinch (approach : ℚ)
deriving DecidableEq, Repr

/-- The recommendation strings of `analyze_subcool_zone`, modelled
structurally; numeric arguments are the unrounded interpolated values. -/
inductive Recommendation where
  | increase_length_20_30
  | add_separate_subcooler
  | reduce_water_inlet_temp
  | increase_water_flow
  | severe_header
  | severe_add_subcooler (area : ℚ)
  | severe_increase_length (percent : ℚ)
  | severe_consider_zoned
  | moderate_header
  | moderate_increase_length (percent : ℚ)
  | moderate_add_subcooler (area : ℚ)
  | moderate_lower_water_temp
  | moderate_increase_flow
  | minor_header
  | minor_increase_length (percent : ℚ)
  | minor_lower_water_temp
  | minor_increase_flow
  | minor_acceptable
  | pinch_zoned_design
deriving DecidableEq, Repr

/-- Recognizer for the thermal-pinch warning. -/
def isPinchWarning : Warning → Bool
  | Warning.thermal_pinch _ => true
  | _ => false

/-- The `analysis` dict returned by `analyze_subcool_zone`; the three area
fields are assigned only when a subcool zone exists. -/
structure SubcoolAnalysis where
  adequate : Bool
  warnings : List Warning
  recommendations : List Recommendation
  A_subcool_actual : Option ℚ
  A_subcool_required : Option ℚ
  area_ratio : Option ℚ
deriving DecidableEq, Repr

/-- `analyze_subcool_zone` (lines 399-508). The `boundaries` membership test
`"subcooled" not in boundaries` is equivalent to the subcool row filter being
empty. -/
def analyze_subcool_zone (segs : List SegmentRec) (subcool_req T_cond : ℚ) (inp : Inputs) :
    SubcoolAnalysis :=
  let subcool_df := segs.filter (fun r => phase_eqb r.phase Phase.subcooled)
  if subcool_df.isEmpty then
    { adequate := false
      warnings := [Warning.critical_no_subcool]
      recommendations :=
        [Recommendation.increase_length_20_30,
         Recommendation.add_separate_subcooler,
         Recommendation.reduce_water_inlet_temp,
         Recommendation.increase_water_flow]
      A_subcool_actual := none
      A_subcool_required := none
      area_ratio := none }
  else
    let A_subcool_actual := optSum (subcool_df.map (fun r => r.A_segment))
    let cp_liquid := inp.ref_props_cp_liquid * 1000
    let Q_subcool_req := inp.m_dot_ref * cp_liquid * subcool_req
    let U_subcool_avg := listMean (subcool_df.map (fun r => r.U_local))
    let LMTD_subcool_avg := optMean (subcool_df.map (fun r => r.LMTD))
    -- `U_avg > 0 and LMTD_avg > 0` is False when the LMTD mean is NaN
    let A_subcool_req : ℚ := match LMTD_subcool_avg with
      | some l => if U_subcool_avg > 0 ∧ l > 0 then Q_subcool_req / (U_subcool_avg * l) else 0
      | none => 0
    let adequate : Bool := decide (A_subcool_actual ≥ A_subcool_req * (95/100))
    let deficit := A_subcool_req - A_subcool_actual
    let deficit_percent : ℚ := if A_subcool_req > 0 then deficit / A_subcool_req * 100 else 0
    let area_warnings : List Warning :=
      if adequate then []
      else [Warning.area_insufficient A_subcool_actual A_subcool_req deficit deficit_percent]
    let area_recommendations : List Recommendation :=
      if adequate then []
      else if deficit_percent > 50 then
        [Recommendation.severe_header,
         Recommendation.severe_add_subcooler (deficit * (12/10)),
         Recommendation.severe_increase_length (deficit_percent * (11/10)),
         Recommendation.severe_consider_zoned]
      else if deficit_percent > 20 then
        [Recommendation.moderate_header,
         Recommendation.moderate_increase_length (deficit_percent * (11/10)),
         Recommendation.moderate_add_subcooler (deficit * (12/10)),
         Recommendation.moderate_lower_water_temp,
         Recommendation.moderate_increase_flow]
      else
        [Recommendation.minor_header,
         Recommendation.minor_increase_length (deficit_percent * (11/10)),
         Recommendation.minor_lower_water_temp,
         Recommendation.minor_increase_flow,
         Recommendation.minor_acceptable]
    -- thermal pinch at subcool inlet; a NaN (absent) T_water_out cell makes
    -- the comparison `approach_at_start < 3.0` False
    let pinch : List Warning × List Recommendation :=
      match subcool_df.head? with
      | some r =>
          match r.T_water_out with
          | some t =>
              if T_cond - t < 3 then
                ([Warning.thermal_pinch (T_cond - t)], [Recommendation.pinch_zoned_design])
              else ([], [])
          | none => ([], [])
      | none => ([], [])
    { adequate := adequate
      warnings := area_warnings ++ pinch.1
      recommendations := area_recommendations ++ pinch.2
      A_subcool_actual := some A_subcool_actual
      A_subcool_required := some A_subcool_req
      area_ratio := some (if A_subcool_req > 0 then A_subcool_actual / A_subcool_req else 999) }

/-- The `results` dict of `calculate_condenser_segmented` (the fields the
core produces; the plotting-profile dicts are pure re-arrangements of
`segments` and are omitted). -/
structure RunResult where
  segments : List SegmentRec
  n_segments : Nat
  zone_boundaries : Phase → Option ZoneBounds
  zone_summaries : Phase → Option ZoneSummary
  Q_total : ℚ
  T_ref_in : ℚ
  T_ref_out : ℚ
  T_water_in : ℚ
  T_water_out : ℚ
  subcool_required : ℚ
  subcool_achieved : ℚ
  subcool_adequate : Bool
  subcool_analysis : SubcoolAnalysis

/-- The full segment trace the loop builds (its `segments_data` list). -/
def run_trace (o : Oracle) (inp : Inputs) : List SegmentRec :=
  (march_aux o inp (init_state o inp) 0 inp.n_segments).2

/-- The loop state after the last segment. -/
def final_state (o : Oracle) (inp : Inputs) : MarchState :=
  (march_aux o inp (init_state o inp) 0 inp.n_segments).1

/-- The post-processing and results dict of lines 299-355 (the source's
"COMPILE RESULTS" block), executed whenever no exception interrupts the
run; `calculate_condenser_segmented` below wraps it in the error paths. -/
def compile_results (o : Oracle) (inp : Inputs) : RunResult :=
  let final := final_state o inp
  let segments_data := run_trace o inp
  let subcool_achieved := inp.T_ref - final.T_ref
  { segments := segments_data
    n_segments := inp.n_segments
    zone_boundaries := identify_zone_boundaries segments_data
    zone_summaries := calculate_zone_summaries segments_data
    Q_total := final.Q_cumulative
    T_ref_in := inp.T_ref_in_superheated
    T_ref_out := final.T_ref
    T_water_in := inp.T_water_in
    T_water_out := final.T_water
    subcool_required := inp.delta_T_sh_sc
    subcool_achieved := subcool_achieved
    subcool_adequate := decide (subcool_achieved ≥ inp.delta_T_sh_sc * (95/100))
    subcool_analysis := analyze_subcool_zone segments_data inp.delta_T_sh_sc inp.T_ref inp }

/-- The unguarded Python exceptions a run can raise before producing a
results dict: `ZeroDivisionError` from `tube_length / self.n_segments`
(line 80) when `n_segments = 0`, and `KeyError("A_segment")` from
`phase_df["A_segment"].sum()` (line 389 in `calculate_zone_summaries`,
reached via line 310) when no segment dict ever assigned the `A_segment`
key — i.e. when every segment took the zero-active-tubes branch, so the
pandas DataFrame has no such column. -/
inductive PyError where
  | zero_division
  | key_error_A_segment
deriving DecidableEq, Repr

/-- `calculate_condenser_segmented`: run the march and post-process, with
the run's unguarded error paths made explicit. A result is returned exactly
when `n_segments ≥ 1` and at least one segment had active tubes (so the
`A_segment` column exists); otherwise the corresponding exception aborts
the run and nothing is returned. -/
def calculate_condenser_segmented (o : Oracle) (inp : Inputs) : Except PyError RunResult :=
  if inp.n_segments = 0 then
    Except.error PyError.zero_division
  else if (run_trace o inp).all (fun r => r.A_segment.isNone) then
    Except.error PyError.key_error_A_segment
  else
    Except.ok (compile_results o inp)

/-- Modelled from the spec: the claimed phase tie-break rule, a function of
the current enthalpy alone (given the saturation enthalpies and the margin):
above `h_g - margin` superheated, below `h_f + margin` subcooled, otherwise
two-phase with quality `(h - h_f)/(h_g - h_f)` clamped to `[0,1]`. -/
def spec_phase_rule (h_ref h_f h_g margin : ℚ) : Phase × Option ℚ :=
  if h_ref > h_g - margin then (Phase.superheat, none)
  else if h_ref < h_f + margin then (Phase.subcooled, none)
  else (Phase.two_phase, some (max 0 (min 1 ((h_ref - h_f) / (h_g - h_f)))))

/-! ### Concrete instantiations used in witnesses and counterexamples

The property-service and correlator methods are unimplemented placeholders
in the source, so any concrete instantiation of `Oracle` is an admissible
environment for a run. Every concrete run below is arranged so that Python
would execute the same branches and raise no unmodelled exception:
`math.log` is either never consulted (zero-active-tube segments, or the
degenerate-LMTD fallback) or consulted only at argument 1 (tube OD equal to
tube ID), where `math.log 1.0 = 0.0` equals the oracle's value exactly, and
every division Python performs has a nonzero denominator. -/

/-- A simple oracle: constant property values, `log` evaluated only at
points where the modelled runs never consult it (zero-active-tube runs). -/
def oracleA : Oracle :=
  { enthalpy := fun _ _ tag => match tag with
      | PhaseTag.vapor => 430000
      | PhaseTag.liquid => 250000
    cp_vapor := fun _ => 1
    cp_liquid := fun _ => 1
    single_phase_htc := fun _ _ _ _ _ => 1000
    condensation_htc := fun _ _ _ _ _ => 2000
    shell_htc := fun _ => 5000
    log := fun _ => 0 }

/-- Oracle whose inlet vapor enthalpy sits in the subcooled enthalpy band
(the property placeholders put no consistency constraint between the inlet
temperature and the inlet enthalpy). -/
def oracleC : Oracle :=
  { oracleA with enthalpy := fun _ _ _ => 250000 }

/-- A design input whose tube-zone dict assigns no tubes to any zone, so
every segment takes the zero-active-tubes branch (no arithmetic beyond the
segment geometry is performed). -/
def inputsZ : Inputs :=
  { m_dot_ref := 1/5
    T_ref_in_superheated := 30
    T_ref := 40
    delta_T_sh_sc := 5
    tube_zones := some []
    n_tubes := 200
    tube_length := 1
    tube_od := 1/50
    tube_id := 3/200
    tube_k := 400
    R_fouling_tube := 0
    R_fouling_shell := 0
    m_dot_water := 7
    C_water := 29000
    T_water_in := 35
    P_cond := 1700
    ref_props_h_fg := 160
    ref_props_cp_liquid := 3/2
    n_segments := 1 }

/-- `inputsZ` with two segments. -/
def inputsZ2 : Inputs := { inputsZ with n_segments := 2 }

/-- An input violating every stated DesignInput invariant at once — one
segment (N < 2), negative refrigerant flow, inner diameter equal to (not
less than) the outer diameter — on an unzoned design whose single segment
is active, so the real run completes. The inlet sits above `T_cond + 0.1`
(superheat) while the secondary inlet is warmer still, so the single-phase
LMTD estimate hits the non-positive-delta fallback (no `math.log` call),
and `math.log(tube_od/tube_id) = math.log 1 = 0` exactly. -/
def inputsBad : Inputs :=
  { inputsZ with
    n_segments := 1
    m_dot_ref := -1
    tube_id := 1/50
    tube_zones := none
    T_ref_in_superheated := 41
    T_water_in := 50 }

/-- `inputsBad` with a positive refrigerant flow: a valid-flow completing
one-segment superheat-only run (used to compare the two adequacy flags). -/
def inputsD : Inputs := { inputsBad with m_dot_ref := 1/5 }

/-- `inputsBad` with zero segments: line 80 divides by `n_segments`. -/
def inputsZero : Inputs := { inputsBad with n_segments := 0 }

/-- Oracle whose inlet vapor enthalpy sits just above the two-phase
threshold `h_f + 100`, so one condensing segment drops the enthalpy into
the subcooled band. -/
def oracleM : Oracle :=
  { oracleA with enthalpy := fun _ _ tag => match tag with
      | PhaseTag.vapor => 250200
      | PhaseTag.liquid => 250000 }

/-- A zoned two-segment design with a single tube assigned to the
condensing zone only: segment 1 condenses on one active tube, segment 2 is
subcooled with zero active tubes, so the run completes with a trace mixing
an assigned and an absent `A_segment` cell. `math.log` is avoided: the
two-phase LMTD is `T_cond - T_water`, segment 2 skips all arithmetic in the
zero-tube branch, and tube OD equals tube ID in the wall term. -/
def inputsM : Inputs :=
  { inputsZ with
    tube_zones := some [(1, ZoneName.condense)]
    tube_length := 2
    tube_id := 1/50
    n_segments := 2 }

/-- `inputsZ` with an inlet temperature above `T_cond + 0.1`. -/
def inputsHot : Inputs := { inputsZ with T_ref_in_superheated := 50 }

/-! ### General lemmas about the marching loop -/

/-- Abbreviation for the per-segment length `L_segment`. -/
def seg_len (inp : Inputs) : ℚ := inp.tube_length / (inp.n_segments : ℚ)

lemma march_step_segment_number (o : Oracle) (inp : Inputs) (i : Nat) (s : MarchState) :
    ((march_step o inp i s).2).segment_number = i + 1 := by
  unfold march_step
  simp only []
  split <;> rfl

lemma march_step_position (o : Oracle) (inp : Inputs) (i : Nat) (s : MarchState) :
    ((march_step o inp i s).2).position_m = (i : ℚ) * seg_len inp + seg_len inp / 2 := by
  unfold march_step seg_len
  simp only []
  split <;> rfl

lemma march_step_Q_cumulative (o : Oracle) (inp : Inputs) (i : Nat) (s : MarchState) :
    ((march_step o inp i s).1).Q_cumulative =
      s.Q_cumulative + ((march_step o inp i s).2).Q_segment := by
  unfold march_step
  simp only []
  split
  · simp
  · rfl

lemma march_aux_length (o : Oracle) (inp : Inputs) :
    ∀ (fuel : Nat) (i : Nat) (s : MarchState),
      ((march_aux o inp s i fuel).2).length = fuel := by
  intro fuel
  induction fuel with
  | zero => intro i s; rfl
  | succ n ih =>
    intro i s
    simp only [march_aux, List.length_cons]
    rw [ih]

lemma march_aux_get_segment_number (o : Oracle) (inp : Inputs) :
    ∀ (fuel i : Nat) (s : MarchState) (k : Nat)
      (hk : k < ((march_aux o inp s i fuel).2).length),
      (((march_aux o inp s i fuel).2).get ⟨k, hk⟩).segment_number = i + k + 1 := by
  intro fuel
  induction fuel with
  | zero => intro i s k hk; simp [march_aux] at hk
  | succ n ih =>
    intro i s k hk
    match k with
    | 0 => simpa [march_aux] using march_step_segment_number o inp i s
    | k' + 1 =>
      have h' : k' < ((march_aux o inp (march_step o inp i s).1 (i + 1) n).2).length := by
        have := hk
        simp only [march_aux, List.length_cons] at this
        omega
      have := ih (i + 1) (march_step o inp i s).1 k' h'
      simpa [march_aux, Nat.add_assoc, Nat.add_comm, Nat.add_left_comm] using this

lemma march_aux_get_position (o : Oracle) (inp : Inputs) :
    ∀ (fuel i : Nat) (s : MarchState) (k : Nat)
      (hk : k < ((march_aux o inp s i fuel).2).length),
      (((march_aux o inp s i fuel).2).get ⟨k, hk⟩).position_m =
        ((i + k : Nat) : ℚ) * seg_len inp + seg_len inp / 2 := by
  intro fuel
  induction fuel with
  | zero => intro i s k hk; simp [march_aux] at hk
  | succ n ih =>
    intro i s k hk
    match k with
    | 0 => simpa [march_aux] using march_step_position o inp i s
    | k' + 1 =>
      have h' : k' < ((march_aux o inp (march_step o inp i s).1 (i + 1) n).2).length := by
        have := hk
        simp only [march_aux, List.length_cons] at this
        omega
      have := ih (i + 1) (march_step o inp i s).1 k' h'
      have harith : i + 1 + k' = i + (k' + 1) := by omega
      simpa [march_aux, harith] using this

lemma march_aux_Q_cumulative (o : Oracle) (inp : Inputs) :
    ∀ (fuel i : Nat) (s : MarchState),
      ((march_aux o inp s i fuel).1).Q_cumulative =
        s.Q_cumulative + (((march_aux o inp s i fuel).2).map (fun r => r.Q_segment)).sum := by
  intro fuel
  induction fuel with
  | zero => intro i s; simp [march_aux]
  | succ n ih =>
    intro i s
    simp only [march_aux, List.map_cons, List.sum_cons]
    rw [ih]
    rw [march_step_Q_cumulative]
    ring

lemma march_step_zero_active (o : Oracle) (inp : Inputs) (i : Nat) (s : MarchState)
    (h : ((march_step o inp i s).2).n_tubes_active = 0) :
    ((march_step o inp i s).2).Q_segment = 0 ∧
    ((march_step o inp i s).2).h_tube = 0 ∧
    ((march_step o inp i s).2).U_local = 0 ∧
    ((march_step o inp i s).2).h_shell = none ∧
    ((march_step o inp i s).2).A_segment = none ∧
    ((march_step o inp i s).2).LMTD = none ∧
    ((march_step o inp i s).2).T_ref_out = none ∧
    ((march_step o inp i s).2).T_water_out = none ∧
    ((march_step o inp i s).2).h_ref = none ∧
    ((march_step o inp i s).1).T_ref = s.T_ref ∧
    ((march_step o inp i s).1).T_water = s.T_water ∧
    ((march_step o inp i s).1).h_ref = s.h_ref ∧
    ((march_step o inp i s).1).Q_cumulative = s.Q_cumulative := by
  unfold march_step at h ⊢
  simp only [] at h ⊢
  split at h
  · split
    · exact ⟨rfl, rfl, rfl, rfl, rfl, rfl, rfl, rfl, rfl, rfl, rfl, rfl, rfl⟩
    · rename_i hc hc'
      exact absurd hc hc'
  · rename_i hc
    exact absurd h hc

lemma phase_eqb_true (p : Phase) : phase_eqb p p = true := by
  cases p <;> rfl

lemma phase_eqb_false {p q : Phase} (h : p ≠ q) : phase_eqb p q = false := by
  cases p <;> cases q <;> first | rfl | exact absurd rfl h

lemma sum_filter_phases (l : List SegmentRec) (f : SegmentRec → ℚ) :
    (((l.filter (fun r => phase_eqb r.phase Phase.superheat)).map f).sum +
     ((l.filter (fun r => phase_eqb r.phase Phase.two_phase)).map f).sum) +
     ((l.filter (fun r => phase_eqb r.phase Phase.subcooled)).map f).sum
    = (l.map f).sum := by
  induction l with
  | nil => simp
  | cons a t ih =>
    cases hph : a.phase <;>
      simp [List.filter_cons, hph, phase_eqb_true,
        phase_eqb_false (show Phase.superheat ≠ Phase.two_phase by intro hx; cases hx),
        phase_eqb_false (show Phase.superheat ≠ Phase.subcooled by intro hx; cases hx),
        phase_eqb_false (show Phase.two_phase ≠ Phase.superheat by intro hx; cases hx),
        phase_eqb_false (show Phase.two_phase ≠ Phase.subcooled by intro hx; cases hx),
        phase_eqb_false (show Phase.subcooled ≠ Phase.superheat by intro hx; cases hx),
        phase_eqb_false (show Phase.subcooled ≠ Phase.two_phase by intro hx; cases hx)] <;>
      linarith [ih]

/-- The reported per-zone duty total: `0` for an absent zone. -/
def zoneQ (r : RunResult) (p : Phase) : ℚ :=
  ((r.zone_summaries p).map (fun z => z.Q_total)).getD 0

lemma zone_summaries_Q_total (segs : List SegmentRec) (p : Phase) :
    ((calculate_zone_summaries segs p).map (fun z => z.Q_total)).getD 0 =
      ((segs.filter (fun r => phase_eqb r.phase p)).map (fun r => r.Q_segment)).sum := by
  unfold calculate_zone_summaries identify_zone_boundaries
  simp only []
  rcases hh : (segs.filter (fun r => phase_eqb r.phase p)).head? with _ | f
  · have : segs.filter (fun r => phase_eqb r.phase p) = [] := by
      cases hfil : segs.filter (fun r => phase_eqb r.phase p) with
      | nil => rfl
      | cons x xs => rw [hfil] at hh; simp at hh
    simp [hh, this]
  · have hne : segs.filter (fun r => phase_eqb r.phase p) ≠ [] := by
      intro hemp
      rw [hemp] at hh
      simp at hh
    rcases hl : (segs.filter (fun r => phase_eqb r.phase p)).getLast? with _ | g
    · exact absurd (List.getLast?_eq_none_iff.mp hl) hne
    · simp [hh, hl]

/-- Saturated-liquid enthalpy as the run computes it (line 97). -/
def h_f_of (o : Oracle) (inp : Inputs) : ℚ :=
  o.enthalpy inp.T_ref inp.P_cond PhaseTag.liquid

/-- Saturated-vapor enthalpy as the run computes it (line 98). -/
def h_g_of (o : Oracle) (inp : Inputs) : ℚ :=
  h_f_of o inp + inp.ref_props_h_fg * 1000

lemma phase_sh_ne_tp : ¬ (Phase.superheat = Phase.two_phase) := by
  intro hx
  cases hx

lemma phase_sh_ne_sc : ¬ (Phase.superheat = Phase.subcooled) := by
  intro hx
  cases hx

/-! ### Claim theorems -/

/-- C4: when the trace contains no subcooled segment, the adequacy analysis
reports `adequate = false`, its warnings are exactly the CRITICAL
no-subcool-zone message, and its recommendations are exactly the four fixed
entries (increase length, add dedicated subcooler, lower secondary inlet
temperature, increase secondary flow), in that order. -/
theorem C4_no_subcool_zone (segs : List SegmentRec) (subcool_req T_cond : ℚ) (inp : Inputs)
    (h : segs.filter (fun r => phase_eqb r.phase Phase.subcooled) = []) :
    (analyze_subcool_zone segs subcool_req T_cond inp).adequate = false ∧
    (analyze_subcool_zone segs subcool_req T_cond inp).warnings =
      [Warning.critical_no_subcool] ∧
    (analyze_subcool_zone segs subcool_req T_cond inp).recommendations =
      [Recommendation.increase_length_20_30,
       Recommendation.add_separate_subcooler,
       Recommendation.reduce_water_inlet_temp,
       Recommendation.increase_water_flow] := by
  unfold analyze_subcool_zone
  simp [h]

/-- C3: with a non-empty subcooled zone whose zone-average U and
zone-average LMTD are positive, the adequacy analysis reports
`adequate = true` exactly when the accumulated subcool area is at least 95%
of the required area `(m_dot × cp_liquid × target subcooling) /
(U_avg × LMTD_avg)`; the comparison is `≥`, so exactly 95% is adequate and
anything below (e.g. 94.9%) is not. -/
theorem C3_subcool_area_adequacy (segs : List SegmentRec) (subcool_req T_cond : ℚ)
    (inp : Inputs) (l : ℚ)
    (hne : segs.filter (fun r => phase_eqb r.phase Phase.subcooled) ≠ [])
    (hLM : optMean ((segs.filter (fun r => phase_eqb r.phase Phase.subcooled)).map
      (fun r => r.LMTD)) = some l)
    (hU : 0 < listMean ((segs.filter (fun r => phase_eqb r.phase Phase.subcooled)).map
      (fun r => r.U_local)))
    (hl : 0 < l) :
    (analyze_subcool_zone segs subcool_req T_cond inp).adequate = true ↔
      optSum ((segs.filter (fun r => phase_eqb r.phase Phase.subcooled)).map
          (fun r => r.A_segment)) ≥
        (95/100) * (inp.m_dot_ref * (inp.ref_props_cp_liquid * 1000) * subcool_req /
          (listMean ((segs.filter (fun r => phase_eqb r.phase Phase.subcooled)).map
            (fun r => r.U_local)) * l)) := by
  unfold analyze_subcool_zone
  simp only [List.isEmpty_eq_true, hne, if_false, hLM]
  rw [if_pos ⟨hU, hl⟩]
  simp only [decide_eq_true_eq]
  constructor <;> intro hx <;> linarith [hx]

/-- C9: for a trace with a non-empty subcooled zone, the analysis emits a
thermal-pinch warning exactly when the secondary-stream temperature recorded
at the subcool zone's first segment (the quantity the code reads as
`T_water_at_subcool_start`) leaves less than 3°C of approach to the
saturation temperature. No adequacy assumption appears anywhere: the iff
holds whether the area check passed or not, so a pinch warning can be
emitted even when `adequate = true`. -/
theorem C9_thermal_pinch (segs : List SegmentRec) (subcool_req T_cond : ℚ) (inp : Inputs)
    (r : SegmentRec) (t : ℚ)
    (hh : (segs.filter (fun r => phase_eqb r.phase Phase.subcooled)).head? = some r)
    (ht : r.T_water_out = some t) :
    ((analyze_subcool_zone segs subcool_req T_cond inp).warnings.any isPinchWarning = true ↔
      T_cond - t < 3) := by
  have hne : segs.filter (fun r => phase_eqb r.phase Phase.subcooled) ≠ [] := by
    intro hemp
    rw [hemp] at hh
    simp at hh
  unfold analyze_subcool_zone
  simp only [List.isEmpty_eq_true, hne, if_false, hh, ht]
  by_cases hpc : T_cond - t < 3
  · rw [if_pos hpc]
    simp [hpc, isPinchWarning]
  · rw [if_neg hpc]
    simp [hpc, isPinchWarning]

/-- C8: when the subcool zone exists but its accumulated area is below 95%
of the required area (computed with positive zone averages; the zone's first
segment leaves at least 3°C of approach, so no pinch entry is appended),
the analysis reports inadequate and emits exactly the tier-specific
recommendation list, bucketed at deficit-percent > 50 (severe),
20 < deficit-percent ≤ 50 (moderate) and deficit-percent ≤ 20 (minor), with
the suggested tube-length increase equal to deficit-percent × 1.1 and the
suggested subcooler area equal to deficit × 1.2. -/
theorem C8_deficit_severity_tiers (segs : List SegmentRec) (subcool_req T_cond : ℚ)
    (inp : Inputs) (r : SegmentRec) (t l : ℚ)
    (hh : (segs.filter (fun r => phase_eqb r.phase Phase.subcooled)).head? = some r)
    (ht : r.T_water_out = some t)
    (hnp : 3 ≤ T_cond - t)
    (hLM : optMean ((segs.filter (fun r => phase_eqb r.phase Phase.subcooled)).map
      (fun r => r.LMTD)) = some l)
    (hU : 0 < listMean ((segs.filter (fun r => phase_eqb r.phase Phase.subcooled)).map
      (fun r => r.U_local)))
    (hl : 0 < l)
    (hAreq : 0 < inp.m_dot_ref * (inp.ref_props_cp_liquid * 1000) * subcool_req /
      (listMean ((segs.filter (fun r => phase_eqb r.phase Phase.subcooled)).map
        (fun r => r.U_local)) * l))
    (hinad : optSum ((segs.filter (fun r => phase_eqb r.phase Phase.subcooled)).map
        (fun r => r.A_segment)) <
      (inp.m_dot_ref * (inp.ref_props_cp_liquid * 1000) * subcool_req /
        (listMean ((segs.filter (fun r => phase_eqb r.phase Phase.subcooled)).map
          (fun r => r.U_local)) * l)) * (95/100)) :
    (analyze_subcool_zone segs subcool_req T_cond inp).adequate = false ∧
    (analyze_subcool_zone segs subcool_req T_cond inp).recommendations =
      (let A_req := inp.m_dot_ref * (inp.ref_props_cp_liquid * 1000) * subcool_req /
        (listMean ((segs.filter (fun r => phase_eqb r.phase Phase.subcooled)).map
          (fun r => r.U_local)) * l)
       let deficit := A_req - optSum ((segs.filter (fun r => phase_eqb r.phase Phase.subcooled)).map
          (fun r => r.A_segment))
       let deficit_percent := deficit / A_req * 100
       if deficit_percent > 50 then
         [Recommendation.severe_header,
          Recommendation.severe_add_subcooler (deficit * (12/10)),
          Recommendation.severe_increase_length (deficit_percent * (11/10)),
          Recommendation.severe_consider_zoned]
       else if deficit_percent > 20 then
         [Recommendation.moderate_header,
          Recommendation.moderate_increase_length (deficit_percent * (11/10)),
          Recommendation.moderate_add_subcooler (deficit * (12/10)),
          Recommendation.moderate_lower_water_temp,
          Recommendation.moderate_increase_flow]
       else
         [Recommendation.minor_header,
          Recommendation.minor_increase_length (deficit_percent * (11/10)),
          Recommendation.minor_lower_water_temp,
          Recommendation.minor_increase_flow,
          Recommendation.minor_acceptable]) := by
  have hne : segs.filter (fun r => phase_eqb r.phase Phase.subcooled) ≠ [] := by
    intro hemp
    rw [hemp] at hh
    simp at hh
  have hnotle : ¬ (optSum ((segs.filter (fun r => phase_eqb r.phase Phase.subcooled)).map
      (fun r => r.A_segment)) ≥
        (inp.m_dot_ref * (inp.ref_props_cp_liquid * 1000) * subcool_req /
          (listMean ((segs.filter (fun r => phase_eqb r.phase Phase.subcooled)).map
            (fun r => r.U_local)) * l)) * (95/100)) := not_le.mpr hinad
  unfold analyze_subcool_zone
  simp only [List.isEmpty_eq_true, hne, if_false, hh, ht, hLM]
  rw [if_pos ⟨hU, hl⟩]
  rw [if_neg hnp.not_lt]
  simp only [decide_eq_true_eq, hnotle, if_false, if_pos hAreq, List.append_nil]
  exact ⟨by simp [hnotle], by simp [hnotle]⟩

/-- C1 (amended): the enthalpy tie-break rule governs a segment's phase only
when the current refrigerant temperature does not exceed `T_cond + 0.1`;
under that proviso (and a positive latent heat) the phase and quality
recorded by a marching step are a function of the current enthalpy alone
relative to the saturation enthalpies and the 100 J/kg margin, with the
subcooled band taken inclusively (`h ≤ h_f + margin`). A segment whose
temperature exceeds `T_cond + 0.1` is classified superheated regardless of
its enthalpy. -/
theorem C1_phase_rule_amended (o : Oracle) (inp : Inputs) (i : Nat) (s : MarchState)
    (hT : s.T_ref ≤ inp.T_ref + 1/10) (hfg : 0 < inp.ref_props_h_fg) :
    ((march_step o inp i s).2.phase, (march_step o inp i s).2.quality) =
      (if s.h_ref > h_g_of o inp - 100 then (Phase.superheat, (none : Option ℚ))
       else if s.h_ref > h_f_of o inp + 100 then
         (Phase.two_phase,
          some (max 0 (min 1 ((s.h_ref - h_f_of o inp) / (h_g_of o inp - h_f_of o inp)))))
       else (Phase.subcooled, none)) := by
  have hpair : ((march_step o inp i s).2.phase, (march_step o inp i s).2.quality) =
      classify_phase s.T_ref inp.T_ref s.h_ref (h_f_of o inp) (h_g_of o inp)
        (inp.ref_props_h_fg * 1000) := by
    unfold march_step h_f_of h_g_of
    simp only []
    split <;> rfl
  rw [hpair]
  unfold classify_phase
  rw [if_neg (not_lt.mpr hT)]
  have hfg1000 : (0:ℚ) < inp.ref_props_h_fg * 1000 := by positivity
  have hgf : h_g_of o inp - h_f_of o inp = inp.ref_props_h_fg * 1000 := by
    unfold h_g_of
    ring
  rw [if_pos hfg1000, hgf]

/-- C2 (amended): the segment model performs no `DesignInput` validation —
no `InvalidInputError` class exists anywhere in the repository, and a
reporting run (`n_segments ≥ 1`, some segment active) whose inputs violate
the stated invariants (N = 1 < 2, a negative flow rate, or inner diameter
not less than outer diameter) is not rejected: the marching loop executes
to completion and the run returns a full trace of `n_segments` records
numbered `1..N`. The only entry failure an invalid input can produce is an
unguarded arithmetic exception (`ZeroDivisionError` at line 80 for N = 0,
exhibited in the counterexample), never an `InvalidInputError`. -/
theorem C2_no_entry_validation (o : Oracle) (inp : Inputs)
    (_hbad : inp.n_segments = 1 ∨ inp.m_dot_ref < 0 ∨ ¬ inp.tube_id < inp.tube_od)
    (hN : inp.n_segments ≠ 0)
    (hact : ((run_trace o inp).all (fun r => r.A_segment.isNone)) = false) :
    calculate_condenser_segmented o inp = Except.ok (compile_results o inp) ∧
    ((compile_results o inp).segments).length = inp.n_segments ∧
    ∀ (k : Nat) (hk : k < ((compile_results o inp).segments).length),
      (((compile_results o inp).segments).get ⟨k, hk⟩).segment_number = k + 1 := by
  refine ⟨?_, ?_, ?_⟩
  · unfold calculate_condenser_segmented
    rw [if_neg hN, hact]
    simp
  · exact march_aux_length o inp inp.n_segments 0 (init_state o inp)
  · intro k hk
    simpa using march_aux_get_segment_number o inp inp.n_segments 0 (init_state o inp) k hk

/-- C5 (amended): a marching step that finds zero active tubes records the
segment with duty, tube-side coefficient and overall conductance equal to
zero, but leaves the area, shell coefficient, LMTD, outlet temperatures,
outlet enthalpy and cumulative-duty fields unassigned (`none`, a NaN cell in
the DataFrame) rather than zero; both stream states and the cumulative duty
are unchanged, the segment still carries its advancing axial midpoint
position and index, and the step returns normally (no error path exists). -/
theorem C5_zero_active_tubes (o : Oracle) (inp : Inputs) (i : Nat) (s : MarchState)
    (h : ((march_step o inp i s).2).n_tubes_active = 0) :
    ((march_step o inp i s).2).Q_segment = 0 ∧
    ((march_step o inp i s).2).h_tube = 0 ∧
    ((march_step o inp i s).2).U_local = 0 ∧
    ((march_step o inp i s).2).A_segment = none ∧
    ((march_step o inp i s).2).h_shell = none ∧
    ((march_step o inp i s).2).LMTD = none ∧
    ((march_step o inp i s).2).T_ref_out = none ∧
    ((march_step o inp i s).2).T_water_out = none ∧
    ((march_step o inp i s).2).h_ref = none ∧
    ((march_step o inp i s).1).T_ref = s.T_ref ∧
    ((march_step o inp i s).1).T_water = s.T_water ∧
    ((march_step o inp i s).1).h_ref = s.h_ref ∧
    ((march_step o inp i s).1).Q_cumulative = s.Q_cumulative ∧
    ((march_step o inp i s).2).position_m = (i : ℚ) * seg_len inp + seg_len inp / 2 ∧
    ((march_step o inp i s).2).segment_number = i + 1 := by
  obtain ⟨h1, h2, h3, h4, h5, h6, h7, h8, h9, h10, h11, h12, h13⟩ :=
    march_step_zero_active o inp i s h
  exact ⟨h1, h2, h3, h5, h4, h6, h7, h8, h9, h10, h11, h12, h13,
    march_step_position o inp i s, march_step_segment_number o inp i s⟩

/-- C6 (amended): for positive tube length, every run that completes and
reports (`n_segments ≥ 1` and at least one segment with active tubes, so
the `A_segment` column exists) returns exactly `n_segments` segment
records, numbered `1..N`, whose axial midpoint positions are
`(k-1)·L + L/2` for `L = tube_length / N` and strictly increasing. A valid
zoned design with zero tubes in every observed zone instead aborts with
`KeyError` in zone-summary post-processing and returns nothing (see the
counterexample). -/
theorem C6_segment_positions (o : Oracle) (inp : Inputs)
    (hL : 0 < inp.tube_length) (hN : inp.n_segments ≠ 0)
    (hact : ((run_trace o inp).all (fun r => r.A_segment.isNone)) = false) :
    calculate_condenser_segmented o inp = Except.ok (compile_results o inp) ∧
    ((compile_results o inp).segments).length = inp.n_segments ∧
    (∀ (k : Nat) (hk : k < ((compile_results o inp).segments).length),
      (((compile_results o inp).segments).get ⟨k, hk⟩).segment_number = k + 1 ∧
      (((compile_results o inp).segments).get ⟨k, hk⟩).position_m =
        (k : ℚ) * seg_len inp + seg_len inp / 2) ∧
    (((compile_results o inp).segments).map
      (fun r => r.position_m)).Pairwise (fun a b => a < b) := by
  have hseg : (0:ℚ) < seg_len inp := by
    unfold seg_len
    apply div_pos hL
    exact_mod_cast Nat.pos_of_ne_zero hN
  refine ⟨?_, march_aux_length o inp inp.n_segments 0 (init_state o inp), ?_, ?_⟩
  · unfold calculate_condenser_segmented
    rw [if_neg hN, hact]
    simp
  · intro k hk
    constructor
    · simpa using march_aux_get_segment_number o inp inp.n_segments 0 (init_state o inp) k hk
    · simpa using march_aux_get_position o inp inp.n_segments 0 (init_state o inp) k hk
  · have hsegs : (compile_results o inp).segments =
        (march_aux o inp (init_state o inp) 0 inp.n_segments).2 := rfl
    rw [hsegs, List.pairwise_map, List.pairwise_iff_get]
    intro a b hab
    have ha := march_aux_get_position o inp inp.n_segments 0 (init_state o inp) a.1 a.2
    have hb := march_aux_get_position o inp inp.n_segments 0 (init_state o inp) b.1 b.2
    simp only [Nat.zero_add] at ha hb
    rw [ha, hb]
    have hcast : ((a.1 : Nat) : ℚ) < ((b.1 : Nat) : ℚ) := by
      exact_mod_cast hab
    nlinarith [hcast, hseg]

/-- C7: energy conservation holds exactly in the embedding (hence within any
floating-point tolerance) on every run that reports: in the results dict
the run builds (`compile_results`, the value every `Except.ok` outcome of
`calculate_condenser_segmented` carries), the sum of the per-segment duties
equals the reported total cumulative duty `Q_total`, and the per-zone duty
totals of the zone summaries (0 for an absent zone) also sum to `Q_total`. -/
theorem C7_energy_conservation (o : Oracle) (inp : Inputs) :
    (((compile_results o inp).segments).map (fun r => r.Q_segment)).sum =
      (compile_results o inp).Q_total ∧
    zoneQ (compile_results o inp) Phase.superheat +
      zoneQ (compile_results o inp) Phase.two_phase +
      zoneQ (compile_results o inp) Phase.subcooled =
      (compile_results o inp).Q_total := by
  have hQ : (compile_results o inp).Q_total =
      (((compile_results o inp).segments).map (fun r => r.Q_segment)).sum := by
    show (march_aux o inp (init_state o inp) 0 inp.n_segments).1.Q_cumulative = _
    rw [march_aux_Q_cumulative o inp inp.n_segments 0 (init_state o inp)]
    show (0:ℚ) + _ = _
    rw [zero_add]
    rfl
  constructor
  · exact hQ.symm
  · have hz : ∀ p, zoneQ (compile_results o inp) p =
        (((compile_results o inp).segments.filter
          (fun r => phase_eqb r.phase p)).map (fun r => r.Q_segment)).sum := by
      intro p
      unfold zoneQ
      exact zone_summaries_Q_total (compile_results o inp).segments p
    rw [hz, hz, hz, hQ]
    exact sum_filter_phases (compile_results o inp).segments
      (fun r => r.Q_segment)

/-- C10: the top-level `subcool_adequate` flag is computed from temperatures
and not from areas: in the results dict of every reporting run
(`compile_results`, the value each `Except.ok` outcome carries),
`subcool_achieved` is the saturation temperature minus the final
refrigerant outlet temperature, and `subcool_adequate` holds exactly when
`subcool_achieved ≥ 0.95 ×` the subcooling target. The closed second part
exhibits an actual completing run (`Except.ok`, a one-segment active
superheat-only march) on which this temperature-based flag is `true` while
the area-based `adequate` flag inside the subcool analysis of the very same
returned result is `false`. -/
theorem C10_subcool_adequate_from_temperatures :
    (∀ (o : Oracle) (inp : Inputs),
      (compile_results o inp).subcool_achieved =
        inp.T_ref - (compile_results o inp).T_ref_out ∧
      ((compile_results o inp).subcool_adequate = true ↔
        (compile_results o inp).subcool_achieved ≥
          inp.delta_T_sh_sc * (95/100))) ∧
    ((calculate_condenser_segmented oracleA inputsD).toOption.map
      (fun res => (res.subcool_adequate, res.subcool_analysis.adequate))) =
      some (true, false) := by
  refine ⟨fun o inp => ⟨rfl, ?_⟩, ?_⟩
  · show decide _ = true ↔ _
    rw [decide_eq_true_eq]
    exact Iff.rfl
  · norm_num [calculate_condenser_segmented, compile_results, run_trace, final_state,
      Except.toOption, march_aux, march_step, init_state, oracleA, inputsD, inputsBad,
      inputsZ, classify_phase, calculate_U_local, math_pi, analyze_subcool_zone,
      get_active_tubes_in_zone, phase_to_zone, phase_eqb, optSum, optMean, listMean,
      identify_zone_boundaries, List.filterMap_cons, List.filterMap_nil, id_eq,
      phase_sh_ne_tp, phase_sh_ne_sc]

/-! ### Concrete traces and states for witnesses and counterexamples -/

/-- A superheated trace row (no subcool zone present). -/
def rowSH : SegmentRec :=
  { segment_number := 1, position_m := 1/2, length_m := 1, phase := Phase.superheat,
    quality := none, T_ref := 50, n_tubes_active := 10, Q_segment := 1000, h_tube := 500,
    U_local := 300, h_shell := some 800, A_segment := some 2, LMTD := some 10,
    T_ref_out := some 49, T_water_out := some 36, h_ref := some 420000,
    Q_cumulative := some 1000 }

/-- A subcooled trace row whose area is exactly 95% of the required area
under `inpW` with a 1 K target. -/
def row95 : SegmentRec :=
  { rowSH with
    phase := Phase.subcooled
    U_local := 100
    LMTD := some 2
    A_segment := some (19/4)
    T_water_out := some 20 }

/-- `row95` with the area lowered to 94.9% of the required area. -/
def row949 : SegmentRec := { row95 with A_segment := some (4749/1000) }

/-- A subcooled trace row in the moderate-deficit tier under `inpW8`. -/
def row8 : SegmentRec :=
  { rowSH with
    phase := Phase.subcooled
    U_local := 1
    LMTD := some 1
    A_segment := some 6
    T_water_out := some 20 }

/-- A subcooled trace row with ample area whose recorded secondary
temperature sits 2°C from saturation (a pinch). -/
def row9 : SegmentRec :=
  { rowSH with
    phase := Phase.subcooled
    U_local := 1
    LMTD := some 1
    A_segment := some 100
    T_water_out := some 38 }

/-- Inputs normalizing the analysis coefficients (`cp_liquid × 1000 = 1000`). -/
def inpW : Inputs := { inputsZ with m_dot_ref := 1, ref_props_cp_liquid := 1 }

/-- Inputs normalizing the analysis coefficients (`cp_liquid × 1000 = 10`). -/
def inpW8 : Inputs := { inputsZ with m_dot_ref := 1, ref_props_cp_liquid := 1/100 }

/-- A loop state at saturation temperature with a mid-band enthalpy. -/
def stateTP : MarchState :=
  { T_ref := 40, T_water := 35, h_ref := 330000, Q_cumulative := 0, current_zone := none }

/-! ### Witnesses and counterexamples -/

/-- C1 counterexample: on a concrete run the first marching step classifies
the segment as superheated (its temperature exceeds `T_cond + 0.1`) even
though its enthalpy lies in the subcooled band, where the claimed
enthalpy-only tie-break rule yields `subcooled`: the phase is not a function
of the enthalpy alone. -/
theorem C1_counterexample :
    (march_step oracleC inputsHot 0 (init_state oracleC inputsHot)).2.phase =
      Phase.superheat ∧
    spec_phase_rule (init_state oracleC inputsHot).h_ref (h_f_of oracleC inputsHot)
      (h_g_of oracleC inputsHot) 100 = (Phase.subcooled, none) := by
  constructor
  · norm_num [march_step, init_state, classify_phase, oracleC, oracleA, inputsHot, inputsZ,
      get_active_tubes_in_zone, phase_to_zone]
  · norm_num [spec_phase_rule, init_state, h_f_of, h_g_of, oracleC, oracleA, inputsHot,
      inputsZ]

/-- Witness for `C1_phase_rule_amended` at a concrete two-phase state. -/
theorem C1_witness :
    ((march_step oracleA inputsZ 0 stateTP).2.phase,
      (march_step oracleA inputsZ 0 stateTP).2.quality) =
      (Phase.two_phase, some (1/2)) := by
  have h := C1_phase_rule_amended oracleA inputsZ 0 stateTP
    (by norm_num [stateTP, inputsZ]) (by norm_num [inputsZ])
  rw [h]
  norm_num [stateTP, h_f_of, h_g_of, oracleA, inputsZ]

/-- C2 counterexample: a run whose inputs violate every DesignInput
invariant (N = 1 < 2, negative refrigerant flow, inner diameter equal to
outer) is not rejected at entry: the marching loop executes and the run
completes, returning a normal one-segment trace. And the entry failure an
invalid input can actually trigger is not an `InvalidInputError` either:
with N = 0, line 80's division raises a plain `ZeroDivisionError`. -/
theorem C2_counterexample :
    (inputsBad.n_segments < 2 ∧ inputsBad.m_dot_ref < 0 ∧
      ¬ inputsBad.tube_id < inputsBad.tube_od) ∧
    ((calculate_condenser_segmented oracleA inputsBad).toOption.map
      (fun res => res.segments.map (fun r => r.segment_number))) = some [1] ∧
    calculate_condenser_segmented oracleA inputsZero =
      Except.error PyError.zero_division := by
  refine ⟨⟨by norm_num [inputsBad, inputsZ], by norm_num [inputsBad, inputsZ],
    by norm_num [inputsBad, inputsZ]⟩, ?_, ?_⟩
  · norm_num [calculate_condenser_segmented, compile_results, run_trace, final_state,
      Except.toOption, march_aux, march_step, init_state, oracleA, inputsBad, inputsZ,
      classify_phase, get_active_tubes_in_zone, phase_to_zone]
  · norm_num [calculate_condenser_segmented, inputsZero, inputsBad, inputsZ]

/-- Witness for `C2_no_entry_validation` at a concretely invalid input whose
run completes. -/
theorem C2_witness :
    calculate_condenser_segmented oracleA inputsBad =
      Except.ok (compile_results oracleA inputsBad) ∧
    ((compile_results oracleA inputsBad).segments).length = inputsBad.n_segments := by
  have h := C2_no_entry_validation oracleA inputsBad
    (Or.inl (by norm_num [inputsBad, inputsZ]))
    (by norm_num [inputsBad, inputsZ])
    (by norm_num [run_trace, march_aux, march_step, init_state, oracleA, inputsBad,
      inputsZ, classify_phase, get_active_tubes_in_zone, phase_to_zone])
  exact ⟨h.1, h.2.1⟩

/-- Witness for `C3_subcool_area_adequacy`: exactly 95% of the required
area is adequate; 94.9% is not. -/
theorem C3_witness :
    (analyze_subcool_zone [row95] 1 40 inpW).adequate = true ∧
    (analyze_subcool_zone [row949] 1 40 inpW).adequate = false := by
  constructor
  · rw [C3_subcool_area_adequacy [row95] 1 40 inpW 2
      (by simp [row95, rowSH, phase_eqb])
      (by norm_num [optMean, row95, rowSH, phase_eqb, List.filterMap_cons, List.filterMap_nil,
        id_eq])
      (by norm_num [listMean, row95, rowSH, phase_eqb])
      (by norm_num)]
    norm_num [optSum, listMean, row95, rowSH, inpW, inputsZ, phase_eqb, List.filterMap_cons,
      List.filterMap_nil, id_eq]
  · rw [Bool.eq_false_iff]
    intro htrue
    have h := (C3_subcool_area_adequacy [row949] 1 40 inpW 2
      (by simp [row949, row95, rowSH, phase_eqb])
      (by norm_num [optMean, row949, row95, rowSH, phase_eqb, List.filterMap_cons,
        List.filterMap_nil, id_eq])
      (by norm_num [listMean, row949, row95, rowSH, phase_eqb])
      (by norm_num)).mp htrue
    norm_num [optSum, listMean, row949, row95, rowSH, inpW, inputsZ, phase_eqb,
      List.filterMap_cons, List.filterMap_nil, id_eq] at h

/-- Witness for `C4_no_subcool_zone` on a trace with no subcooled row. -/
theorem C4_witness :
    (analyze_subcool_zone [rowSH] 5 40 inputsZ).adequate = false ∧
    (analyze_subcool_zone [rowSH] 5 40 inputsZ).warnings = [Warning.critical_no_subcool] ∧
    (analyze_subcool_zone [rowSH] 5 40 inputsZ).recommendations =
      [Recommendation.increase_length_20_30,
       Recommendation.add_separate_subcooler,
       Recommendation.reduce_water_inlet_temp,
       Recommendation.increase_water_flow] :=
  C4_no_subcool_zone [rowSH] 5 40 inputsZ (by simp [rowSH, phase_eqb])

/-- C5 counterexample: on a concrete completing run (one active condensing
segment followed by a zero-active-tube subcooled segment), the returned
trace's zero-tube segment has its `A_segment` cell absent
(`Option.isNone = true`, a NaN cell), not the value `0` the claim asserts
is recorded for the area. -/
theorem C5_counterexample :
    ((calculate_condenser_segmented oracleM inputsM).toOption.map
      (fun res => res.segments.map (fun r => (r.n_tubes_active, r.A_segment.isNone)))) =
      some [(1, false), (0, true)] := by
  norm_num [calculate_condenser_segmented, compile_results, run_trace, final_state,
    Except.toOption, march_aux, march_step, init_state, oracleM, oracleA, inputsM,
    inputsZ, classify_phase, calculate_U_local, math_pi, get_active_tubes_in_zone,
    phase_to_zone, zone_eqb]

/-- Witness for `C5_zero_active_tubes` on a concrete zero-allocation step. -/
theorem C5_witness :
    (march_step oracleA inputsZ 0 (init_state oracleA inputsZ)).2.Q_segment = 0 ∧
    (march_step oracleA inputsZ 0 (init_state oracleA inputsZ)).2.A_segment = none ∧
    (march_step oracleA inputsZ 0 (init_state oracleA inputsZ)).1.T_ref =
      (init_state oracleA inputsZ).T_ref := by
  have h := C5_zero_active_tubes oracleA inputsZ 0 (init_state oracleA inputsZ)
    (by norm_num [march_step, init_state, oracleA, inputsZ, classify_phase,
      get_active_tubes_in_zone, phase_to_zone])
  exact ⟨h.1, h.2.2.2.1, h.2.2.2.2.2.2.2.2.2.1⟩

/-- C6 counterexample: `inputsZ2` satisfies every DesignInput invariant of
the spec (N = 2 ≥ 2, both flow rates positive, inner diameter strictly
below outer), yet its zone map assigns no tube to any zone, so the real run
aborts with `KeyError("A_segment")` in `calculate_zone_summaries` and
returns no segments at all — falsifying "the marcher run returns exactly N
segments" over all valid DesignInputs. -/
theorem C6_counterexample :
    (2 ≤ inputsZ2.n_segments ∧ 0 < inputsZ2.m_dot_ref ∧ 0 < inputsZ2.m_dot_water ∧
      inputsZ2.tube_id < inputsZ2.tube_od) ∧
    calculate_condenser_segmented oracleA inputsZ2 =
      Except.error PyError.key_error_A_segment := by
  refine ⟨⟨by norm_num [inputsZ2, inputsZ], by norm_num [inputsZ2, inputsZ],
    by norm_num [inputsZ2, inputsZ], by norm_num [inputsZ2, inputsZ]⟩, ?_⟩
  norm_num [calculate_condenser_segmented, run_trace, march_aux, march_step, init_state,
    oracleA, inputsZ2, inputsZ, classify_phase, get_active_tubes_in_zone, phase_to_zone]

/-- Witness for `C6_segment_positions` on a concrete completing two-segment
run. -/
theorem C6_witness :
    ((calculate_condenser_segmented oracleM inputsM).toOption.map
      (fun res => res.segments.length)) = some 2 := by
  have h := C6_segment_positions oracleM inputsM
    (by norm_num [inputsM, inputsZ])
    (by norm_num [inputsM, inputsZ])
    (by norm_num [run_trace, march_aux, march_step, init_state, oracleM, oracleA,
      inputsM, inputsZ, classify_phase, calculate_U_local, math_pi,
      get_active_tubes_in_zone, phase_to_zone, zone_eqb])
  rw [h.1]
  simp only [Except.toOption, Option.map_some']
  rw [h.2.1]
  rfl

/-- Witness for `C8_deficit_severity_tiers`: a 40% deficit lands in the
moderate tier with a suggested 44% length increase (40 × 1.1). -/
theorem C8_witness :
    (analyze_subcool_zone [row8] 1 40 inpW8).adequate = false ∧
    (analyze_subcool_zone [row8] 1 40 inpW8).recommendations =
      [Recommendation.moderate_header,
       Recommendation.moderate_increase_length 44,
       Recommendation.moderate_add_subcooler (24/5),
       Recommendation.moderate_lower_water_temp,
       Recommendation.moderate_increase_flow] := by
  have h := C8_deficit_severity_tiers [row8] 1 40 inpW8 row8 20 1
    (by simp [row8, rowSH, phase_eqb])
    (by norm_num [row8, rowSH])
    (by norm_num)
    (by norm_num [optMean, row8, rowSH, phase_eqb, List.filterMap_cons, List.filterMap_nil,
      id_eq])
    (by norm_num [listMean, row8, rowSH, phase_eqb])
    (by norm_num)
    (by norm_num [listMean, row8, rowSH, inpW8, inputsZ, phase_eqb])
    (by norm_num [optSum, listMean, row8, rowSH, inpW8, inputsZ, phase_eqb,
      List.filterMap_cons, List.filterMap_nil, id_eq])
  refine ⟨h.1, ?_⟩
  rw [h.2]
  norm_num [optSum, listMean, row8, rowSH, inpW8, inputsZ, phase_eqb, List.filterMap_cons,
    List.filterMap_nil, id_eq]

/-- Witness for `C9_thermal_pinch`: a pinch warning is emitted on a trace
whose first subcooled row sits 2°C from saturation, on the same analysis
whose area check passes (`adequate = true`). -/
theorem C9_witness :
    ((analyze_subcool_zone [row9] 0 40 inpW).warnings.any isPinchWarning = true) ∧
    (analyze_subcool_zone [row9] 0 40 inpW).adequate = true := by
  constructor
  · exact (C9_thermal_pinch [row9] 0 40 inpW row9 38
      (by simp [row9, rowSH, phase_eqb]) (by norm_num [row9, rowSH])).mpr (by norm_num)
  · norm_num [analyze_subcool_zone, row9, rowSH, inpW, inputsZ, phase_eqb, optSum,
      optMean, listMean, List.filterMap_cons, List.filterMap_nil, id_eq]
